import Mathlib

/-!
# Moderation pipeline of `backend/index.js`

A shallow embedding of the Cloud Functions in `backend/index.js`:
the lexical scanner and decision logic of `moderateAudioContent`, the
`submitResponse` handler, the `handleEscalatedResponse` trigger and the
`cleanupExpiredContent` sweep, followed by the properties proved about them.

JavaScript strings are embedded as `String`; all matching is done on the
character list `String.data`.  None of the patterns and phrases of the source
contains a character outside ASCII, a wildcard or a negated class, so a
character outside the Basic Multilingual Plane (two UTF-16 code units in
JavaScript, one `Char` here) behaves the same in both: it matches nothing.
-/

namespace Stitch

/-! ## JavaScript string built-ins used by the scanner -/

/-- Lower-casing of one character as `String.prototype.toLowerCase` does it, up
to what the scanner can observe.  `A`-`Z` go to `a`-`z`; the two characters
outside ASCII whose lower case contains an ASCII letter are U+212A (KELVIN
SIGN, to `k`) and U+0130 (to `i` followed by U+0307).  Every other character
is its own lower case or has a lower case outside ASCII, and is kept as it is:
the phrases searched for are ASCII, so neither such a character nor its lower
case can be part of an occurrence. -/
def lowerChar (c : Char) : List Char :=
  if c = Char.ofNat 0x212A then ['k']
  else if c = Char.ofNat 0x0130 then ['i', Char.ofNat 0x0307]
  else [c.toLower]

/-- The method `s.toLowerCase()`. -/
def toLowerCase (s : String) : String :=
  ⟨s.data.flatMap lowerChar⟩

/-- Does the list `s` start with `t`. -/
def startsWithList : List Char → List Char → Bool
  | _, [] => true
  | [], _ :: _ => false
  | c :: cs, d :: ds => c == d && startsWithList cs ds

/-- Does `t` occur in `s` as a contiguous block. -/
def includesList : List Char → List Char → Bool
  | [], t => startsWithList [] t
  | c :: cs, t => startsWithList (c :: cs) t || includesList cs t

/-- The method `s.includes(t)`. -/
def includes (s t : String) : Bool :=
  includesList s.data t.data

/-! ## Regular expressions

The four patterns of `piiPatterns` use character classes, quantified character
classes, literals, one alternation and the assertion `\b`.  `RegExp.test`
answers whether some start position admits some match, so the matcher computes
all the states reachable after a sub-pattern.  A state is the character before
the current position (needed by `\b`) and the rest of the input. -/

/-- Patterns, as far as `piiPatterns` needs them. -/
inductive Regex where
  | eps : Regex
  | cls : (Char → Bool) → Regex
  | many : (Char → Bool) → Nat → Option Nat → Regex
  | wordBoundary : Regex
  | seq : Regex → Regex → Regex
  | alt : Regex → Regex → Regex

/-- State of a match: the previous character, the remaining input. -/
abbrev MatchState := Option Char × List Char

/-- Class `\d`. -/
def isDigitChar (c : Char) : Bool :=
  '0' ≤ c && c ≤ '9'

/-- Class `[A-Za-z]`. -/
def isLetterChar (c : Char) : Bool :=
  ('A' ≤ c && c ≤ 'Z') || ('a' ≤ c && c ≤ 'z')

/-- Class `\w`, that is `[A-Za-z0-9_]`. -/
def isWordChar (c : Char) : Bool :=
  isLetterChar c || isDigitChar c || c == '_'

/-- Class `\s`: the white space and line terminators of ECMAScript. -/
def isSpaceChar (c : Char) : Bool :=
  let n := c.toNat
  n == 0x09 || n == 0x0A || n == 0x0B || n == 0x0C || n == 0x0D || n == 0x20 ||
  n == 0xA0 || n == 0x1680 || (0x2000 ≤ n && n ≤ 0x200A) || n == 0x2028 ||
  n == 0x2029 || n == 0x202F || n == 0x205F || n == 0x3000 || n == 0xFEFF

/-- Class `[A-Za-z0-9._%+-]`, the local part of the email pattern. -/
def isEmailLocalChar (c : Char) : Bool :=
  isLetterChar c || isDigitChar c || c == '.' || c == '_' || c == '%' || c == '+' || c == '-'

/-- Class `[A-Za-z0-9.-]`, the domain of the email pattern. -/
def isEmailDomainChar (c : Char) : Bool :=
  isLetterChar c || isDigitChar c || c == '.' || c == '-'

/-- Class `[A-Z|a-z]`, the top-level domain of the email pattern (the bar is a
member of the class). -/
def isEmailTldChar (c : Char) : Bool :=
  isLetterChar c || c == '|'

/-- Is an optional character a word character (`none`: start or end of input). -/
def isWordAt : Option Char → Bool
  | none => false
  | some c => isWordChar c

/-- States after `p{min,max}` (`max = none`: unbounded), all repetition counts. -/
def manyStates (p : Char → Bool) : Nat → Option Nat → Option Char → List Char → List MatchState
  | min, _, prev, [] => if min = 0 then [(prev, [])] else []
  | min, max, prev, c :: cs =>
    (if min = 0 then [(prev, c :: cs)] else []) ++
    (if p c && max != some 0 then
      manyStates p (min - 1) (max.map (fun m => m - 1)) (some c) cs
    else [])

/-- States reachable after matching the pattern from a state. -/
def Regex.run : Regex → MatchState → List MatchState
  | .eps, st => [st]
  | .cls _, (_, []) => []
  | .cls p, (_, c :: cs) => if p c then [(some c, cs)] else []
  | .many p min max, (prev, rest) => manyStates p min max prev rest
  | .wordBoundary, (prev, rest) =>
    if isWordAt prev != isWordAt rest.head? then [(prev, rest)] else []
  | .seq r₁ r₂, st => (r₁.run st).flatMap r₂.run
  | .alt r₁ r₂, st => r₁.run st ++ r₂.run st

/-- Is there a match starting at this state. -/
def Regex.matchesAt (r : Regex) (st : MatchState) : Bool :=
  !(r.run st).isEmpty

/-- Is there a match starting at this or a later position. -/
def Regex.searchFrom (r : Regex) : Option Char → List Char → Bool
  | prev, [] => r.matchesAt (prev, [])
  | prev, c :: cs => r.matchesAt (prev, c :: cs) || r.searchFrom (some c) cs

/-- The method `pattern.test(s)` of a pattern without the flags `g` and `y`. -/
def Regex.test (r : Regex) (s : String) : Bool :=
  r.searchFrom none s.data

/-- A literal character. -/
def Regex.chr (c : Char) : Regex :=
  .cls (fun x => x == c)

/-- A literal ASCII letter under the flag `i`: without the flag `u` a character
outside ASCII is never folded onto an ASCII one. -/
def Regex.chrI (c : Char) : Regex :=
  .cls (fun x => x.toUpper == c.toUpper)

/-- A literal word under the flag `i`. -/
def Regex.wordI (s : String) : Regex :=
  s.data.foldr (fun c r => .seq (.chrI c) r) .eps

/-- Sequence of patterns. -/
def Regex.seqs (rs : List Regex) : Regex :=
  rs.foldr .seq .eps

/-- Alternation of the patterns `r :: rs`. -/
def Regex.alts (r : Regex) (rs : List Regex) : Regex :=
  rs.foldl .alt r

/-- Pattern `\d{n}`. -/
def Regex.digits (n : Nat) : Regex :=
  .many isDigitChar n (some n)

/-- Phone numbers: `/\b\d{3}-\d{3}-\d{4}\b/`. -/
def phonePattern : Regex :=
  .seqs [.wordBoundary, .digits 3, .chr '-', .digits 3, .chr '-', .digits 4, .wordBoundary]

/-- SSN: `/\b\d{3}-\d{2}-\d{4}\b/`. -/
def ssnPattern : Regex :=
  .seqs [.wordBoundary, .digits 3, .chr '-', .digits 2, .chr '-', .digits 4, .wordBoundary]

/-- Email: `/\b[A-Za-z0-9._%+-]+@[A-Za-z0-9.-]+\.[A-Z|a-z]{2,}\b/`. -/
def emailPattern : Regex :=
  .seqs [.wordBoundary, .many isEmailLocalChar 1 none, .chr '@',
    .many isEmailDomainChar 1 none, .chr '.', .many isEmailTldChar 2 none, .wordBoundary]

/-- Address:
`/\b\d{1,5}\s\w+\s(street|st|avenue|ave|road|rd|lane|ln|drive|dr|court|ct|place|pl)\b/i`. -/
def addressPattern : Regex :=
  .seqs [.wordBoundary, .many isDigitChar 1 (some 5), .cls isSpaceChar,
    .many isWordChar 1 none, .cls isSpaceChar,
    .alts (.wordI "street") [.wordI "st", .wordI "avenue", .wordI "ave", .wordI "road",
      .wordI "rd", .wordI "lane", .wordI "ln", .wordI "drive", .wordI "dr", .wordI "court",
      .wordI "ct", .wordI "place", .wordI "pl"],
    .wordBoundary]

/-! ## `moderateAudioContent` -/

/-- The flags a verdict can carry. -/
inductive Flag where
  | PII_DETECTED
  | HARMFUL_CONTENT
  | SELF_HARM_RISK
  | MODERATION_ERROR
  deriving DecidableEq

/-- The object `moderationResult`. -/
structure ModerationResult where
  approved : Bool
  flags : List Flag
  escalated : Bool
  reason : Option String
  deriving DecidableEq

/-- One entry of `moderationResponse.results`; only `flagged` is read. -/
structure AiModeration where
  flagged : Bool
  deriving DecidableEq

/-- What the third-party classifier does for one call of `moderateAudioContent`:
no key is configured (the service is not called), the call
`openai.moderations.create` throws or rejects, or it returns its results. -/
inductive ClassifierOutcome where
  | unconfigured
  | raised
  | returned (results : List AiModeration)
  deriving DecidableEq

/-- The list `flaggedWords`. -/
def flaggedWords : List String :=
  ["suicide", "kill myself", "end it all", "can't go on",
   "hate", "violence", "bomb", "attack", "murder"]

/-- The list `piiPatterns`. -/
def piiPatterns : List Regex :=
  [phonePattern, ssnPattern, emailPattern, addressPattern]

/-- The list `selfHarmIndicators`. -/
def selfHarmIndicators : List String :=
  ["kill myself", "end my life", "suicide", "can't go on",
   "nobody cares", "better off dead", "end it all"]

/-- Step 1, `hasRiskyContent`. -/
def hasRiskyContent (transcriptionText : String) : Bool :=
  flaggedWords.any (fun word => includes (toLowerCase transcriptionText) (toLowerCase word))

/-- Step 2, `hasPII`. -/
def hasPII (transcriptionText : String) : Bool :=
  piiPatterns.any (fun pattern => pattern.test transcriptionText)

/-- Step 3, the value of `aiModeration` after the guarded classifier call:
`null` when no key is configured, `null` when the call raised (the inner
`catch` only logs), otherwise `results[0]` (`undefined` for no results). -/
def aiModeration : ClassifierOutcome → Option AiModeration
  | .unconfigured => none
  | .raised => none
  | .returned results => results.head?

/-- Step 4, `hasSelfHarmContent`. -/
def hasSelfHarmContent (transcriptionText : String) : Bool :=
  selfHarmIndicators.any
    (fun indicator => includes (toLowerCase transcriptionText) (toLowerCase indicator))

/-- The condition `aiModeration && aiModeration.flagged`. -/
def aiFlagged : Option AiModeration → Bool
  | none => false
  | some r => r.flagged

/-- The block "Decision logic": the initial verdict and the three updates. -/
def decisionLogic (hasPII hasRiskyContent : Bool) (aiModeration : Option AiModeration)
    (hasSelfHarmContent : Bool) : ModerationResult :=
  let r₀ : ModerationResult := { approved := true, flags := [], escalated := false, reason := none }
  let r₁ : ModerationResult :=
    if hasPII then
      { r₀ with approved := false, flags := r₀.flags ++ [Flag.PII_DETECTED],
                reason := some "Personal information detected" }
    else r₀
  let r₂ : ModerationResult :=
    if hasRiskyContent || aiFlagged aiModeration then
      { r₁ with approved := false, flags := r₁.flags ++ [Flag.HARMFUL_CONTENT],
                reason := some "Content violates community guidelines" }
    else r₁
  let r₃ : ModerationResult :=
    if hasSelfHarmContent then
      { r₂ with escalated := true, flags := r₂.flags ++ [Flag.SELF_HARM_RISK] }
    else r₂
  r₃

/-- The verdict of the outer `catch`. -/
def moderationErrorResult : ModerationResult :=
  { approved := false, flags := [Flag.MODERATION_ERROR], escalated := false,
    reason := some "Unable to process content" }

/-- The body of the outer `try` of `moderateAudioContent`.  The only statement
of it that can throw on a string is the classifier call, and that one has its
own `catch`, so the body always completes. -/
def moderationBody (transcriptionText : String) (classifier : ClassifierOutcome) :
    Except Unit ModerationResult :=
  .ok (decisionLogic (hasPII transcriptionText) (hasRiskyContent transcriptionText)
    (aiModeration classifier) (hasSelfHarmContent transcriptionText))

/-- The function `moderateAudioContent`. -/
def moderateAudioContent (transcriptionText : String) (classifier : ClassifierOutcome) :
    ModerationResult :=
  match moderationBody transcriptionText classifier with
  | .ok moderationResult => moderationResult
  | .error _ => moderationErrorResult

/-! ## The document store

Collections whose documents are addressed by a key (`daily_prompts`,
`audio_responses`) are lists of key and data; collections that are only
appended to with `add` (`moderation_queue`, `escalated_responses`) are lists of
data.  Times are milliseconds.  Whether the read and the write of one invocation
of `submitResponse` throw is part of its environment `Env`; the trigger and the
sweep are described for writes that the store accepts. -/

/-- Key of a document. -/
abbrev DocId := String

/-- A point in time, in milliseconds. -/
abbrev Timestamp := Nat

/-- A document of `daily_prompts`. -/
structure Prompt where
  id : String
  question : String
  date : String
  createdAt : Timestamp
  expiresAt : Timestamp
  deriving DecidableEq

/-- A value of the request body, parsed from JSON: absent, `null`, a boolean, a
number (a fraction behaves as a nonzero integer does), a string, or an array or
object.  Of an array or object only one thing matters here: whether
`Buffer.from` accepts it (an array, a serialised buffer) or throws. -/
inductive JsValue where
  | undefined
  | null
  | bool (b : Bool)
  | number (n : Int)
  | string (s : String)
  | object (bufferSource : Bool)
  deriving DecidableEq

/-- Truthiness of a value, as `!value` reads it. -/
def JsValue.truthy : JsValue → Bool
  | .undefined => false
  | .null => false
  | .bool b => b
  | .number n => n != 0
  | .string s => s != ""
  | .object _ => true

/-- The object `responseData`, a document of `audio_responses`. -/
structure ResponseData where
  id : String
  promptId : String
  audioData : JsValue
  transcription : String
  duration : JsValue
  createdAt : Timestamp
  flags : List Flag
  escalated : Bool
  deriving DecidableEq

/-- A document of `moderation_queue`. -/
structure ModerationEntry where
  promptId : String
  transcription : String
  moderationResult : ModerationResult
  timestamp : Timestamp
  deriving DecidableEq

/-- A document of `escalated_responses`. -/
structure EscalationEntry where
  responseId : String
  promptId : String
  transcription : String
  flags : List Flag
  timestamp : Timestamp
  deriving DecidableEq

/-- The Firestore database, as far as the functions use it. -/
structure Store where
  daily_prompts : List (DocId × Prompt)
  audio_responses : List (DocId × ResponseData)
  moderation_queue : List ModerationEntry
  escalated_responses : List EscalationEntry
  deriving DecidableEq

/-- The writes the functions issue. -/
inductive Write where
  | setResponse (responseId : DocId) (responseData : ResponseData)
  | addModeration (entry : ModerationEntry)
  | addEscalation (entry : EscalationEntry)
  | deletePrompt (promptId : DocId)
  | deleteResponse (responseId : DocId)
  deriving DecidableEq

/-- The call `doc(key).set(data)`: replaces the document of that key, or creates it. -/
def setDoc {α : Type} (key : DocId) (data : α) : List (DocId × α) → List (DocId × α)
  | [] => [(key, data)]
  | d :: rest => if d.1 = key then (key, data) :: rest else d :: setDoc key data rest

/-- Deletion of the document of a key. -/
def deleteDoc {α : Type} (key : DocId) (docs : List (DocId × α)) : List (DocId × α) :=
  docs.filter (fun d => d.1 ≠ key)

/-- The call `doc(key).get()`. -/
def getDoc {α : Type} (key : DocId) (docs : List (DocId × α)) : Option α :=
  (docs.find? (fun d => d.1 = key)).map Prod.snd

/-- Effect of one write on the store. -/
def Store.apply (db : Store) : Write → Store
  | .setResponse responseId responseData =>
    { db with audio_responses := setDoc responseId responseData db.audio_responses }
  | .addModeration entry => { db with moderation_queue := db.moderation_queue ++ [entry] }
  | .addEscalation entry => { db with escalated_responses := db.escalated_responses ++ [entry] }
  | .deletePrompt promptId => { db with daily_prompts := deleteDoc promptId db.daily_prompts }
  | .deleteResponse responseId =>
    { db with audio_responses := deleteDoc responseId db.audio_responses }

/-- Effect of a sequence of writes. -/
def Store.applyAll (db : Store) (writes : List Write) : Store :=
  writes.foldl Store.apply db

/-! ## `transcribeAudio` and `submitResponse` -/

/-- What lies outside the program during one invocation of `submitResponse`: the
clock, the speech service on the decoded audio (`none`: `recognize` or the
reading of its response threw; otherwise the transcripts of the results), the
classifier, the identifier `uuidv4()` returns, and the store: `getThrows` says
that the read `doc(promptId).get()` throws (the path is not a document path, the
store fails), `writeThrows` that the one write `add` or `set` is rejected (the
document is over the size limit, the store fails) and stores nothing. -/
structure Env where
  now : Timestamp
  serverTimestamp : Timestamp
  recognize : JsValue → Option (List String)
  classifier : ClassifierOutcome
  uuid : String
  getThrows : Bool
  writeThrows : Bool

/-- The function `transcribeAudio` on the buffer decoded from `audioData`: the
transcripts joined by a line feed, the empty string when anything threw. -/
def transcribeAudio (env : Env) (audioData : JsValue) : String :=
  match env.recognize audioData with
  | some transcripts => String.intercalate "\n" transcripts
  | none => ""

/-- The request, as far as `submitResponse` reads it: the method and the fields
`promptId`, `audioData` and `duration` of the body. -/
structure Request where
  method : String
  promptId : JsValue
  audioData : JsValue
  duration : JsValue

/-- Body of a reply. -/
inductive ReplyBody where
  | empty
  | error (error : String)
  | notApproved (reason : Option String) (escalated : Bool)
  | success (responseId : String) (escalated : Bool)
  deriving DecidableEq

/-- A reply: status and body. -/
structure Reply where
  status : Nat
  body : ReplyBody
  deriving DecidableEq

/-- Outcome of one invocation of `submitResponse`: the reply, the writes the
store took, in order, and the value of the local `moderationResult` (`none` when
the handler left the `try` before the call of `moderateAudioContent`). -/
structure SubmitResult where
  reply : Reply
  writes : List Write
  moderationResult : Option ModerationResult
  deriving DecidableEq

/-- The expression `duration || 5`. -/
def durationOrDefault (duration : JsValue) : JsValue :=
  if duration.truthy then duration else .number 5

/-- The reply of the `catch` of the handler. -/
def internalServerError : Reply :=
  ⟨500, .error "Internal server error"⟩

/-- The document key that `db.collection(PROMPTS_COLLECTION).doc(promptId).get()`
reads, `none` when the call throws: `doc` throws on anything but a string, and
the read throws when the environment says so. -/
def promptKey (env : Env) : JsValue → Option DocId
  | .string s => if env.getThrows then none else some s
  | _ => none

/-- Does `Buffer.from(audioData, 'base64')` return (a string is decoded
leniently and never throws; a number or boolean throws a TypeError). -/
def bufferFromAccepts : JsValue → Bool
  | .string _ => true
  | .object bufferSource => bufferSource
  | _ => false

/-- The handler `submitResponse`.  A throw inside the `try` ends in its `catch`,
which answers 500. -/
def submitResponse (env : Env) (db : Store) (req : Request) : SubmitResult :=
  if req.method = "OPTIONS" then
    { reply := ⟨200, .empty⟩, writes := [], moderationResult := none }
  else if req.method ≠ "POST" then
    { reply := ⟨405, .error "Method not allowed"⟩, writes := [], moderationResult := none }
  else if !req.promptId.truthy || !req.audioData.truthy then
    { reply := ⟨400, .error "Missing required fields"⟩, writes := [], moderationResult := none }
  else
    match promptKey env req.promptId with
    | none => { reply := internalServerError, writes := [], moderationResult := none }
    | some promptId =>
      match getDoc promptId db.daily_prompts with
      | none =>
        { reply := ⟨404, .error "Prompt not found"⟩, writes := [], moderationResult := none }
      | some prompt =>
        if env.now > prompt.expiresAt then
          { reply := ⟨400, .error "Prompt has expired"⟩, writes := [], moderationResult := none }
        else if !bufferFromAccepts req.audioData then
          { reply := internalServerError, writes := [], moderationResult := none }
        else
          let transcription := transcribeAudio env req.audioData
          let moderationResult := moderateAudioContent transcription env.classifier
          if !moderationResult.approved then
            if env.writeThrows then
              { reply := internalServerError, writes := [],
                moderationResult := some moderationResult }
            else
              { reply := ⟨400, .notApproved moderationResult.reason moderationResult.escalated⟩,
                writes := [.addModeration
                  { promptId := promptId, transcription := transcription,
                    moderationResult := moderationResult, timestamp := env.serverTimestamp }],
                moderationResult := some moderationResult }
          else
            let responseId := env.uuid
            let responseData : ResponseData :=
              { id := responseId, promptId := promptId, audioData := req.audioData,
                transcription := transcription, duration := durationOrDefault req.duration,
                createdAt := env.serverTimestamp, flags := moderationResult.flags,
                escalated := moderationResult.escalated }
            if env.writeThrows then
              { reply := internalServerError, writes := [],
                moderationResult := some moderationResult }
            else
              { reply := ⟨200, .success responseId moderationResult.escalated⟩,
                writes := [.setResponse responseId responseData],
                moderationResult := some moderationResult }

/-! ## `handleEscalatedResponse` -/

/-- The trigger `handleEscalatedResponse`, run on the creation of the document
`audio_responses/{responseId}`. -/
def handleEscalatedResponse (env : Env) (responseId : DocId) (response : ResponseData) :
    List Write :=
  if response.escalated then
    [.addEscalation
      { responseId := responseId, promptId := response.promptId,
        transcription := response.transcription, flags := response.flags,
        timestamp := env.serverTimestamp }]
  else []

/-- The creation events of a write: Firestore runs the `onCreate` trigger
registered on `audio_responses/{responseId}` for a `set` on a key that held no
document.  No trigger is registered on any other collection. -/
def onCreateWrites (env : Env) (db : Store) : Write → List Write
  | .setResponse responseId responseData =>
    if (getDoc responseId db.audio_responses).isNone then
      handleEscalatedResponse env responseId responseData
    else []
  | _ => []

/-- One write and the triggers it sets off. -/
def commitWrite (env : Env) (db : Store) (w : Write) : Store :=
  (db.apply w).applyAll (onCreateWrites env db w)

/-- A submission from request to the store at rest: the writes of the handler
and the triggers they set off. -/
def processSubmission (env : Env) (db : Store) (req : Request) : Store :=
  (submitResponse env db req).writes.foldl (commitWrite env) db

/-! ## `cleanupExpiredContent` -/

/-- The batch `cleanupExpiredContent` builds at time `now`: the deletion of
every expired prompt, then of every response of each expired prompt. -/
def cleanupBatch (now : Timestamp) (db : Store) : List Write :=
  let expiredPrompts := db.daily_prompts.filter (fun doc => doc.2.expiresAt ≤ now)
  expiredPrompts.map (fun doc => Write.deletePrompt doc.1) ++
  expiredPrompts.flatMap (fun promptDoc =>
    (db.audio_responses.filter (fun responseDoc => responseDoc.2.promptId = promptDoc.1)).map
      (fun responseDoc => Write.deleteResponse responseDoc.1))

/-- The scheduled function `cleanupExpiredContent`: the store after
`batch.commit()`. -/
def cleanupExpiredContent (now : Timestamp) (db : Store) : Store :=
  db.applyAll (cleanupBatch now db)

/-! ## Statements about a submission -/

/-- The transcript the handler moderates for a request. -/
def submittedTranscript (env : Env) (req : Request) : String :=
  transcribeAudio env req.audioData

/-- The verdict the handler obtains for a request. -/
def submittedVerdict (env : Env) (req : Request) : ModerationResult :=
  moderateAudioContent (submittedTranscript env req) env.classifier

/-- Is the write the storing of a PublishedResponse (a document of `audio_responses`). -/
def Write.isPublishedResponse : Write → Bool
  | .setResponse _ _ => true
  | _ => false

/-- Is the write the storing of a ModerationQueueEntry (a document of `moderation_queue`). -/
def Write.isQueueEntry : Write → Bool
  | .addModeration _ => true
  | _ => false

/-- The verdict with nothing found. -/
def cleanResult : ModerationResult :=
  { approved := true, flags := [], escalated := false, reason := none }

/-- Is the write a deletion. -/
def Write.isDelete : Write → Bool
  | .deletePrompt _ => true
  | .deleteResponse _ => true
  | _ => false

/-! ## Sample data -/

/-- A prompt of the day 2024-05-01 that expires at 86401000. -/
def samplePrompt : Prompt :=
  { id := "2024-05-01", question := "What's a sound you can hear right now?",
    date := "2024-05-01", createdAt := 1000, expiresAt := 86401000 }

/-- A store that holds the sample prompt and nothing else. -/
def sampleStore : Store :=
  { daily_prompts := [("2024-05-01", samplePrompt)], audio_responses := [],
    moderation_queue := [], escalated_responses := [] }

/-- An invocation at time `now` in which the speech service hears `transcript`,
no classifier is configured, the identifier drawn is "response-1" and the store
serves the read and the write. -/
def sampleEnv (now : Timestamp) (transcript : String) : Env :=
  { now := now, serverTimestamp := now, recognize := fun _ => some [transcript],
    classifier := .unconfigured, uuid := "response-1", getThrows := false,
    writeThrows := false }

/-- A well-formed submission to the sample prompt. -/
def sampleRequest : Request :=
  { method := "POST", promptId := .string "2024-05-01", audioData := .string "UklGRg==",
    duration := .number 3 }

/-- A submission to the sample prompt whose `audioData` is the number 123. -/
def sampleRequestNumericAudio : Request :=
  { method := "POST", promptId := .string "2024-05-01", audioData := .number 123,
    duration := .number 3 }

/-- A store with the sample prompt, a published response to it and a
moderation-queue entry about it. -/
def sampleStoreWithContent : Store :=
  { daily_prompts := [("2024-05-01", samplePrompt)],
    audio_responses :=
      [("response-0",
        { id := "response-0", promptId := "2024-05-01", audioData := .string "UklGRg==",
          transcription := "rain on the window", duration := .number 5, createdAt := 5000,
          flags := [], escalated := false })],
    moderation_queue :=
      [{ promptId := "2024-05-01", transcription := "i hate this",
         moderationResult :=
           { approved := false, flags := [Flag.HARMFUL_CONTENT], escalated := false,
             reason := some "Content violates community guidelines" },
         timestamp := 6000 }],
    escalated_responses := [] }

/-! ## Lemmas on the scanner -/

theorem startsWithList_iff (s t : List Char) :
    startsWithList s t = true ↔ ∃ u, s = t ++ u := by
  induction t generalizing s with
  | nil => simp [startsWithList]
  | cons d ds ih =>
    cases s with
    | nil => simp [startsWithList]
    | cons c cs =>
      simp only [startsWithList, Bool.and_eq_true, beq_iff_eq, ih, List.cons_append,
        List.cons.injEq]
      constructor
      · rintro ⟨rfl, u, rfl⟩
        exact ⟨u, rfl, rfl⟩
      · rintro ⟨u, rfl, rfl⟩
        exact ⟨rfl, u, rfl⟩

theorem includesList_iff (s t : List Char) :
    includesList s t = true ↔ t <:+: s := by
  induction s with
  | nil =>
    simp only [includesList, startsWithList_iff]
    constructor
    · rintro ⟨u, hu⟩
      exact ⟨[], u, by simpa using hu.symm⟩
    · rintro ⟨a, b, hab⟩
      have h1 : a ++ t = [] := (List.append_eq_nil.mp hab).1
      have h2 : t = [] := (List.append_eq_nil.mp h1).2
      exact ⟨[], by simp [h2]⟩
  | cons c cs ih =>
    simp only [includesList, Bool.or_eq_true, startsWithList_iff, ih]
    constructor
    · rintro (⟨u, hu⟩ | ⟨a, b, hab⟩)
      · exact ⟨[], u, by simpa using hu.symm⟩
      · exact ⟨c :: a, b, by simp [← hab]⟩
    · rintro ⟨a, b, hab⟩
      cases a with
      | nil => exact Or.inl ⟨b, by simpa using hab.symm⟩
      | cons a₀ as =>
        simp only [List.cons_append, List.cons.injEq] at hab
        exact Or.inr ⟨as, b, hab.2⟩

theorem includes_iff (s t : String) :
    includes s t = true ↔ t.data <:+: s.data :=
  includesList_iff s.data t.data

theorem hasSelfHarmContent_iff (text : String) :
    hasSelfHarmContent text = true ↔
      ∃ phrase ∈ selfHarmIndicators, (toLowerCase phrase).data <:+: (toLowerCase text).data := by
  simp only [hasSelfHarmContent, List.any_eq_true, includes_iff]

theorem hasRiskyContent_iff (text : String) :
    hasRiskyContent text = true ↔
      ∃ word ∈ flaggedWords, (toLowerCase word).data <:+: (toLowerCase text).data := by
  simp only [hasRiskyContent, List.any_eq_true, includes_iff]

theorem hasPII_iff (text : String) :
    hasPII text = true ↔ ∃ pattern ∈ piiPatterns, pattern.test text = true := by
  simp only [hasPII, List.any_eq_true]

theorem moderateAudioContent_eq (text : String) (c : ClassifierOutcome) :
    moderateAudioContent text c =
      decisionLogic (hasPII text) (hasRiskyContent text) (aiModeration c)
        (hasSelfHarmContent text) := rfl

theorem no_risky_word_of_false (text : String) (h : hasRiskyContent text = false) :
    ∀ word ∈ flaggedWords, ¬ (toLowerCase word).data <:+: (toLowerCase text).data := by
  intro word hw hin
  have ht : hasRiskyContent text = true := (hasRiskyContent_iff text).mpr ⟨word, hw, hin⟩
  rw [h] at ht
  exact Bool.false_ne_true ht

theorem no_self_harm_phrase_of_false (text : String) (h : hasSelfHarmContent text = false) :
    ∀ phrase ∈ selfHarmIndicators,
      ¬ (toLowerCase phrase).data <:+: (toLowerCase text).data := by
  intro phrase hp hin
  have ht : hasSelfHarmContent text = true := (hasSelfHarmContent_iff text).mpr ⟨phrase, hp, hin⟩
  rw [h] at ht
  exact Bool.false_ne_true ht

theorem no_pattern_of_false (text : String) (h : hasPII text = false) :
    ∀ pattern ∈ piiPatterns, pattern.test text = false := by
  intro pattern hp
  cases ht : pattern.test text with
  | false => rfl
  | true =>
    have hh : hasPII text = true := (hasPII_iff text).mpr ⟨pattern, hp, ht⟩
    rw [h] at hh
    exact absurd hh Bool.false_ne_true

/-! ## Lemmas on the handler and the store -/

theorem submitResponse_of_live (env : Env) (db : Store) (req : Request) (promptId : String)
    (prompt : Prompt)
    (hMethod : req.method = "POST")
    (hPromptId : req.promptId = .string promptId) (hNonEmpty : promptId ≠ "")
    (hAudio : req.audioData.truthy = true)
    (hGet : env.getThrows = false)
    (hPrompt : getDoc promptId db.daily_prompts = some prompt)
    (hLive : ¬ env.now > prompt.expiresAt) :
    submitResponse env db req =
      if bufferFromAccepts req.audioData = false then
        { reply := internalServerError, writes := [], moderationResult := none }
      else if env.writeThrows = true then
        { reply := internalServerError, writes := [],
          moderationResult := some (submittedVerdict env req) }
      else if (submittedVerdict env req).approved = true then
        { reply := ⟨200, .success env.uuid (submittedVerdict env req).escalated⟩,
          writes := [.setResponse env.uuid
            { id := env.uuid, promptId := promptId, audioData := req.audioData,
              transcription := submittedTranscript env req,
              duration := durationOrDefault req.duration,
              createdAt := env.serverTimestamp, flags := (submittedVerdict env req).flags,
              escalated := (submittedVerdict env req).escalated }],
          moderationResult := some (submittedVerdict env req) }
      else
        { reply := ⟨400, .notApproved (submittedVerdict env req).reason
            (submittedVerdict env req).escalated⟩,
          writes := [.addModeration
            { promptId := promptId, transcription := submittedTranscript env req,
              moderationResult := submittedVerdict env req,
              timestamp := env.serverTimestamp }],
          moderationResult := some (submittedVerdict env req) } := by
  have h1 : ¬ ("POST" = "OPTIONS") := by decide
  have h2 : (JsValue.string promptId).truthy = true := by
    simp [JsValue.truthy, hNonEmpty]
  simp only [submitResponse, hMethod, h1, if_false, ne_eq, not_true_eq_false, hPromptId, h2,
    hAudio, Bool.not_true, Bool.or_self, Bool.false_eq_true, promptKey, hGet, hPrompt, hLive,
    submittedVerdict, submittedTranscript]
  cases bufferFromAccepts req.audioData <;> cases env.writeThrows <;>
    cases (moderateAudioContent (transcribeAudio env req.audioData) env.classifier).approved <;>
    simp

theorem submitResponse_of_expired (env : Env) (db : Store) (req : Request)
    (promptId : String) (prompt : Prompt)
    (hMethod : req.method = "POST")
    (hPromptId : req.promptId = .string promptId) (hNonEmpty : promptId ≠ "")
    (hAudio : req.audioData.truthy = true)
    (hGet : env.getThrows = false)
    (hPrompt : getDoc promptId db.daily_prompts = some prompt)
    (hExpired : env.now > prompt.expiresAt) :
    submitResponse env db req =
      { reply := ⟨400, .error "Prompt has expired"⟩, writes := [], moderationResult := none } := by
  have h1 : ¬ ("POST" = "OPTIONS") := by decide
  have h2 : (JsValue.string promptId).truthy = true := by
    simp [JsValue.truthy, hNonEmpty]
  simp only [submitResponse, hMethod, h1, if_false, ne_eq, not_true_eq_false, hPromptId, h2,
    hAudio, Bool.not_true, Bool.or_self, Bool.false_eq_true, promptKey, hGet, hPrompt, hExpired,
    if_true]

theorem applyAll_deletes (ws : List Write) (hws : ∀ w ∈ ws, w.isDelete = true) (db : Store) :
    (db.applyAll ws).moderation_queue = db.moderation_queue ∧
    (db.applyAll ws).escalated_responses = db.escalated_responses ∧
    (∀ d, d ∈ (db.applyAll ws).daily_prompts ↔
      d ∈ db.daily_prompts ∧ Write.deletePrompt d.1 ∉ ws) ∧
    (∀ r, r ∈ (db.applyAll ws).audio_responses ↔
      r ∈ db.audio_responses ∧ Write.deleteResponse r.1 ∉ ws) := by
  induction ws generalizing db with
  | nil => simp [Store.applyAll]
  | cons w ws ih =>
    have hrest : ∀ w' ∈ ws, w'.isDelete = true := fun w' hw' => hws w' (List.mem_cons_of_mem _ hw')
    have hw : w.isDelete = true := hws w (List.mem_cons_self _ _)
    have hstep : db.applyAll (w :: ws) = (db.apply w).applyAll ws := rfl
    rw [hstep]
    obtain ⟨i1, i2, i3, i4⟩ := ih hrest (db.apply w)
    cases w with
    | setResponse a b => simp [Write.isDelete] at hw
    | addModeration e => simp [Write.isDelete] at hw
    | addEscalation e => simp [Write.isDelete] at hw
    | deletePrompt key =>
      refine ⟨i1, i2, ?_, ?_⟩
      · intro d
        rw [i3 d]
        simp only [Store.apply, deleteDoc, List.mem_filter, decide_eq_true_eq, List.mem_cons,
          Write.deletePrompt.injEq, not_or]
        constructor
        · rintro ⟨⟨hd, hne⟩, hnot⟩
          exact ⟨hd, fun h => hne h, hnot⟩
        · rintro ⟨hd, hne, hnot⟩
          exact ⟨⟨hd, fun h => hne h⟩, hnot⟩
      · intro r
        rw [i4 r]
        simp [Store.apply]
    | deleteResponse key =>
      refine ⟨i1, i2, ?_, ?_⟩
      · intro d
        rw [i3 d]
        simp [Store.apply]
      · intro r
        rw [i4 r]
        simp only [Store.apply, deleteDoc, List.mem_filter, decide_eq_true_eq, List.mem_cons,
          Write.deleteResponse.injEq, not_or]
        constructor
        · rintro ⟨⟨hd, hne⟩, hnot⟩
          exact ⟨hd, fun h => hne h, hnot⟩
        · rintro ⟨hd, hne, hnot⟩
          exact ⟨⟨hd, fun h => hne h⟩, hnot⟩

theorem cleanupBatch_deletes (now : Timestamp) (db : Store) :
    ∀ w ∈ cleanupBatch now db, w.isDelete = true := by
  intro w hw
  simp only [cleanupBatch, List.mem_append, List.mem_map, List.mem_flatMap] at hw
  rcases hw with ⟨d, _, rfl⟩ | ⟨d, _, r, _, rfl⟩ <;> rfl

/-! ## The verdict of `moderateAudioContent` -/

/-- C1: a transcript whose lower case contains one of the self-harm phrases is
escalated and flagged SELF_HARM_RISK, for every classifier outcome and whatever
the approval. -/
theorem self_harm_phrase_escalates (text : String) (c : ClassifierOutcome)
    (h : ∃ phrase ∈ selfHarmIndicators,
      (toLowerCase phrase).data <:+: (toLowerCase text).data) :
    (moderateAudioContent text c).escalated = true ∧
      Flag.SELF_HARM_RISK ∈ (moderateAudioContent text c).flags := by
  have hs : hasSelfHarmContent text = true := (hasSelfHarmContent_iff text).mpr h
  rw [moderateAudioContent_eq, hs]
  simp [decisionLogic]

/-- C1 at "i want to end it all": the phrase "end it all" occurs, and the verdict
is escalated and flagged under an unconfigured classifier, a failed call, a
flagging and a non-flagging result. -/
theorem self_harm_phrase_escalates_witness :
    (∃ phrase ∈ selfHarmIndicators,
      (toLowerCase phrase).data <:+: (toLowerCase "i want to end it all").data) ∧
    (∀ c ∈ [ClassifierOutcome.unconfigured, .raised, .returned [⟨true⟩], .returned [⟨false⟩]],
      (moderateAudioContent "i want to end it all" c).escalated = true ∧
      Flag.SELF_HARM_RISK ∈ (moderateAudioContent "i want to end it all" c).flags) :=
  have h : ∃ phrase ∈ selfHarmIndicators,
      (toLowerCase phrase).data <:+: (toLowerCase "i want to end it all").data :=
    ⟨"end it all", by decide, (includes_iff _ _).mp (by decide)⟩
  ⟨h, fun c _ => self_harm_phrase_escalates "i want to end it all" c h⟩

/-- C2: a transcript matched by one of the four PII patterns is rejected and
flagged PII_DETECTED, for every classifier outcome. -/
theorem pii_match_rejects (text : String) (c : ClassifierOutcome)
    (h : ∃ pattern ∈ piiPatterns, pattern.test text = true) :
    (moderateAudioContent text c).approved = false ∧
      Flag.PII_DETECTED ∈ (moderateAudioContent text c).flags := by
  have hp : hasPII text = true := (hasPII_iff text).mpr h
  rw [moderateAudioContent_eq, hp]
  simp only [decisionLogic]
  generalize aiFlagged (aiModeration c) = flagged
  cases hasRiskyContent text <;> cases flagged <;> cases hasSelfHarmContent text <;> simp

/-- C2 at "my ssn is 123-45-6789": the SSN pattern matches, so the verdict is
rejected and flagged; without a classifier signal it is exactly
approved=false, flags=[PII_DETECTED], escalated=false. -/
theorem pii_match_rejects_witness :
    (∃ pattern ∈ piiPatterns, pattern.test "my ssn is 123-45-6789" = true) ∧
    ((moderateAudioContent "my ssn is 123-45-6789" .unconfigured).approved = false ∧
      Flag.PII_DETECTED ∈ (moderateAudioContent "my ssn is 123-45-6789" .unconfigured).flags) ∧
    moderateAudioContent "my ssn is 123-45-6789" .unconfigured =
      { approved := false, flags := [Flag.PII_DETECTED], escalated := false,
        reason := some "Personal information detected" } ∧
    moderateAudioContent "my ssn is 123-45-6789" .raised =
      moderateAudioContent "my ssn is 123-45-6789" .unconfigured :=
  have h : ∃ pattern ∈ piiPatterns, pattern.test "my ssn is 123-45-6789" = true :=
    ⟨ssnPattern, by simp [piiPatterns], by decide⟩
  ⟨h, pii_match_rejects "my ssn is 123-45-6789" .unconfigured h, by decide, rfl⟩

/-- C3: a transcript that contains no risky word and no self-harm phrase and
that no PII pattern matches gets, when the classifier is unconfigured or its
call failed, exactly the verdict approved=true, flags=[], escalated=false,
reason=null. -/
theorem clean_text_unavailable_approved (text : String) (c : ClassifierOutcome)
    (hRisky : ∀ word ∈ flaggedWords, ¬ (toLowerCase word).data <:+: (toLowerCase text).data)
    (hSelfHarm : ∀ phrase ∈ selfHarmIndicators,
      ¬ (toLowerCase phrase).data <:+: (toLowerCase text).data)
    (hPII : ∀ pattern ∈ piiPatterns, pattern.test text = false)
    (hc : c = .unconfigured ∨ c = .raised) :
    moderateAudioContent text c =
      { approved := true, flags := [], escalated := false, reason := none } := by
  have h1 : hasRiskyContent text = false := by
    rw [← Bool.not_eq_true, hasRiskyContent_iff]
    rintro ⟨w, hw, hin⟩
    exact hRisky w hw hin
  have h2 : hasSelfHarmContent text = false := by
    rw [← Bool.not_eq_true, hasSelfHarmContent_iff]
    rintro ⟨w, hw, hin⟩
    exact hSelfHarm w hw hin
  have h3 : hasPII text = false := by
    rw [← Bool.not_eq_true, hasPII_iff]
    rintro ⟨r, hr, ht⟩
    rw [hPII r hr] at ht
    exact Bool.false_ne_true ht
  have h4 : aiModeration c = none := by
    rcases hc with rfl | rfl <;> rfl
  rw [moderateAudioContent_eq, h1, h2, h3, h4]
  rfl

/-- C3 at "it's a sunny day and I feel grateful" with a failed classifier call,
and at the empty transcript with an unconfigured classifier. -/
theorem clean_text_unavailable_approved_witness :
    moderateAudioContent "it's a sunny day and I feel grateful" .raised =
      { approved := true, flags := [], escalated := false, reason := none } ∧
    moderateAudioContent "" .unconfigured =
      { approved := true, flags := [], escalated := false, reason := none } :=
  ⟨clean_text_unavailable_approved "it's a sunny day and I feel grateful" .raised
      (no_risky_word_of_false _ (by decide)) (no_self_harm_phrase_of_false _ (by decide))
      (no_pattern_of_false _ (by decide)) (Or.inr rfl),
   clean_text_unavailable_approved "" .unconfigured
      (no_risky_word_of_false _ (by decide)) (no_self_harm_phrase_of_false _ (by decide))
      (no_pattern_of_false _ (by decide)) (Or.inl rfl)⟩

/-- C4, as stated, fails: at the transcript "hello" a classifier call that
raises leaves the verdict approved with no flag, not the MODERATION_ERROR
verdict. -/
theorem classifier_raise_not_fail_closed :
    moderateAudioContent "hello" .raised =
      { approved := true, flags := [], escalated := false, reason := none } ∧
    moderateAudioContent "hello" .raised ≠
      { approved := false, flags := [Flag.MODERATION_ERROR], escalated := false,
        reason := some "Unable to process content" } := by
  decide

/-- C4, amended: an error raised by the classifier call is absorbed by the
handler around the call; the verdict is the one of the decision logic without a
classifier result, equal to the verdict under an unconfigured classifier, and it
is never the MODERATION_ERROR verdict. -/
theorem classifier_raise_is_absorbed (text : String) :
    moderateAudioContent text .raised =
      decisionLogic (hasPII text) (hasRiskyContent text) none (hasSelfHarmContent text) ∧
    moderateAudioContent text .raised = moderateAudioContent text .unconfigured ∧
    Flag.MODERATION_ERROR ∉ (moderateAudioContent text .raised).flags ∧
    moderateAudioContent text .raised ≠ moderationErrorResult := by
  have hflags : Flag.MODERATION_ERROR ∉ (moderateAudioContent text .raised).flags := by
    rw [moderateAudioContent_eq]
    simp only [decisionLogic, aiModeration, aiFlagged]
    cases hasPII text <;> cases hasRiskyContent text <;> cases hasSelfHarmContent text <;>
      simp
  refine ⟨rfl, rfl, hflags, ?_⟩
  intro heq
  rw [heq] at hflags
  exact hflags (by simp [moderationErrorResult])

/-- C8: for every scan result the decision without a classifier result is the
decision with a result that is not flagged; hence the verdict of a transcript
under an unconfigured classifier, and under a failed call, is its verdict under
a classifier that answers not flagged. -/
theorem unavailable_is_no_signal :
    (∀ hasPII hasRisky hasSelfHarm : Bool,
      decisionLogic hasPII hasRisky none hasSelfHarm =
        decisionLogic hasPII hasRisky (some { flagged := false }) hasSelfHarm) ∧
    (∀ (text : String) (more : List AiModeration),
      moderateAudioContent text .unconfigured =
        moderateAudioContent text (.returned ({ flagged := false } :: more)) ∧
      moderateAudioContent text .raised =
        moderateAudioContent text (.returned ({ flagged := false } :: more))) :=
  ⟨fun _ _ _ => rfl, fun _ _ => ⟨rfl, rfl⟩⟩

/-- C9, as stated, fails: at "call 555-123-4567 i want to end it all" the PII
check and the harmful-content check both fire and the flags are not
[PII_DETECTED, HARMFUL_CONTENT]: SELF_HARM_RISK follows them. -/
theorem flags_of_both_checks_with_self_harm :
    hasPII "call 555-123-4567 i want to end it all" = true ∧
    hasRiskyContent "call 555-123-4567 i want to end it all" = true ∧
    (moderateAudioContent "call 555-123-4567 i want to end it all" .unconfigured).flags =
      [Flag.PII_DETECTED, Flag.HARMFUL_CONTENT, Flag.SELF_HARM_RISK] ∧
    (moderateAudioContent "call 555-123-4567 i want to end it all" .unconfigured).flags ≠
      [Flag.PII_DETECTED, Flag.HARMFUL_CONTENT] := by
  decide

/-- C9, amended: the reason is "Content violates community guidelines" whenever
the harmful-content check fires (risky word, or a classifier result that is
flagged), also when the PII check fires too; it is "Personal information
detected" when only the PII check fires, and null otherwise.  The flags are
PII_DETECTED if the PII check fires, then HARMFUL_CONTENT if the
harmful-content check fires, then SELF_HARM_RISK if a self-harm phrase is
present.  A verdict is approved exactly when neither check fires, which is
exactly when its reason is null. -/
theorem reason_precedence (text : String) (c : ClassifierOutcome) :
    (moderateAudioContent text c).reason =
      (if hasRiskyContent text || aiFlagged (aiModeration c) then
        some "Content violates community guidelines"
      else if hasPII text then some "Personal information detected"
      else none) ∧
    (moderateAudioContent text c).flags =
      (if hasPII text then [Flag.PII_DETECTED] else []) ++
      (if hasRiskyContent text || aiFlagged (aiModeration c) then [Flag.HARMFUL_CONTENT]
        else []) ++
      (if hasSelfHarmContent text then [Flag.SELF_HARM_RISK] else []) ∧
    (moderateAudioContent text c).approved =
      !(hasPII text || (hasRiskyContent text || aiFlagged (aiModeration c))) ∧
    ((moderateAudioContent text c).approved = false →
      (moderateAudioContent text c).reason ≠ none) ∧
    ((moderateAudioContent text c).approved = true →
      (moderateAudioContent text c).reason = none) := by
  rw [moderateAudioContent_eq]
  simp only [decisionLogic]
  generalize aiFlagged (aiModeration c) = flagged
  cases hasPII text <;> cases hasRiskyContent text <;> cases flagged <;>
    cases hasSelfHarmContent text <;> simp

/-- C9, amended, at "call 555-123-4567 i hate you": both checks fire, the reason
is the one of the harmful-content check and the flags are PII_DETECTED then
HARMFUL_CONTENT. -/
theorem reason_precedence_witness :
    (moderateAudioContent "call 555-123-4567 i hate you" .unconfigured).approved = false ∧
    (moderateAudioContent "call 555-123-4567 i hate you" .unconfigured).reason ≠ none ∧
    (moderateAudioContent "call 555-123-4567 i hate you" .unconfigured).reason =
      some "Content violates community guidelines" ∧
    (moderateAudioContent "call 555-123-4567 i hate you" .unconfigured).flags =
      [Flag.PII_DETECTED, Flag.HARMFUL_CONTENT] :=
  have h := reason_precedence "call 555-123-4567 i hate you" .unconfigured
  have ha : (moderateAudioContent "call 555-123-4567 i hate you" .unconfigured).approved =
      false := by decide
  ⟨ha, h.2.2.2.1 ha, by decide, by decide⟩

/-! ## The submission handler -/

/-- C5, as stated, fails: the submission to the live sample prompt whose
audioData is the number 123 has both fields present, yet `Buffer.from` throws,
the reply is 500 and neither record is written. -/
theorem numeric_audio_writes_neither :
    sampleRequestNumericAudio.promptId.truthy = true ∧
    sampleRequestNumericAudio.audioData.truthy = true ∧
    getDoc "2024-05-01" sampleStore.daily_prompts = some samplePrompt ∧
    ¬ (sampleEnv 2000 "hello").now > samplePrompt.expiresAt ∧
    (submitResponse (sampleEnv 2000 "hello") sampleStore sampleRequestNumericAudio).reply =
      ⟨500, .error "Internal server error"⟩ ∧
    (submitResponse (sampleEnv 2000 "hello") sampleStore sampleRequestNumericAudio).writes =
      [] := by
  decide

/-- C5, amended: a POST submission with promptId and audioData present, to a
prompt that is read, exists and is not expired, never writes both records.
When `Buffer.from` accepts audioData and the store takes the write, exactly one
record is written: a PublishedResponse exactly when the verdict is approved, a
ModerationQueueEntry exactly when it is not, and the reply is the accepting one
(status 200) exactly when the PublishedResponse was written.  When
`Buffer.from` throws or the write is rejected, the reply is 500 "Internal
server error" and neither record is written. -/
theorem submit_writes_at_most_one (env : Env) (db : Store) (req : Request)
    (promptId : String) (prompt : Prompt)
    (hMethod : req.method = "POST")
    (hPromptId : req.promptId = .string promptId) (hNonEmpty : promptId ≠ "")
    (hAudio : req.audioData.truthy = true)
    (hGet : env.getThrows = false)
    (hPrompt : getDoc promptId db.daily_prompts = some prompt)
    (hLive : ¬ env.now > prompt.expiresAt) :
    ¬ ((submitResponse env db req).writes.any Write.isPublishedResponse = true ∧
        (submitResponse env db req).writes.any Write.isQueueEntry = true) ∧
    (bufferFromAccepts req.audioData = true → env.writeThrows = false →
      (submitResponse env db req).moderationResult = some (submittedVerdict env req) ∧
      (submitResponse env db req).writes.length = 1 ∧
      ((submitResponse env db req).writes.any Write.isPublishedResponse = true ↔
        (submittedVerdict env req).approved = true) ∧
      ((submitResponse env db req).writes.any Write.isQueueEntry = true ↔
        (submittedVerdict env req).approved = false) ∧
      ((submitResponse env db req).reply.status = 200 ↔
        (submitResponse env db req).writes.any Write.isPublishedResponse = true) ∧
      ((submitResponse env db req).reply =
          ⟨200, .success env.uuid (submittedVerdict env req).escalated⟩ ↔
        (submitResponse env db req).writes.any Write.isPublishedResponse = true)) ∧
    ((bufferFromAccepts req.audioData = false ∨ env.writeThrows = true) →
      (submitResponse env db req).reply = ⟨500, .error "Internal server error"⟩ ∧
      (submitResponse env db req).writes = []) := by
  rw [submitResponse_of_live env db req promptId prompt hMethod hPromptId hNonEmpty hAudio hGet
    hPrompt hLive]
  cases bufferFromAccepts req.audioData <;> cases env.writeThrows <;>
    cases (submittedVerdict env req).approved <;>
    simp [Write.isPublishedResponse, Write.isQueueEntry, internalServerError]

/-- C5, amended, at the sample submission, heard as "hello" at time 2000: the
verdict is approved, the one write is the PublishedResponse and the reply
accepts. -/
theorem submit_writes_at_most_one_witness :
    (submittedVerdict (sampleEnv 2000 "hello") sampleRequest).approved = true ∧
    (submitResponse (sampleEnv 2000 "hello") sampleStore sampleRequest).writes.length = 1 ∧
    (submitResponse (sampleEnv 2000 "hello") sampleStore sampleRequest).writes.any
      Write.isPublishedResponse = true ∧
    (submitResponse (sampleEnv 2000 "hello") sampleStore sampleRequest).reply.status = 200 :=
  have h := (submit_writes_at_most_one (sampleEnv 2000 "hello") sampleStore sampleRequest
    "2024-05-01" samplePrompt rfl rfl (by decide) (by decide) rfl (by decide)
    (by decide)).2.1 (by decide) rfl
  have ha : (submittedVerdict (sampleEnv 2000 "hello") sampleRequest).approved = true := by
    decide
  ⟨ha, h.2.1, h.2.2.1.mpr ha, h.2.2.2.2.1.mpr (h.2.2.1.mpr ha)⟩

/-- C6, as stated, fails: the sample submission heard as "i want to end it all"
is rejected with an escalated verdict and stored in the moderation queue, and
no record is written to escalated_responses. -/
theorem rejected_escalated_has_no_review_record :
    getDoc "2024-05-01" sampleStore.daily_prompts = some samplePrompt ∧
    ¬ (sampleEnv 2000 "i want to end it all").now > samplePrompt.expiresAt ∧
    (submittedVerdict (sampleEnv 2000 "i want to end it all") sampleRequest).approved = false ∧
    (submittedVerdict (sampleEnv 2000 "i want to end it all") sampleRequest).escalated = true ∧
    (processSubmission (sampleEnv 2000 "i want to end it all") sampleStore
      sampleRequest).moderation_queue =
      [{ promptId := "2024-05-01", transcription := "i want to end it all",
         moderationResult :=
           { approved := false, flags := [Flag.HARMFUL_CONTENT, Flag.SELF_HARM_RISK],
             escalated := true, reason := some "Content violates community guidelines" },
         timestamp := 2000 }] ∧
    (processSubmission (sampleEnv 2000 "i want to end it all") sampleStore
      sampleRequest).escalated_responses = [] := by
  decide

/-- C6, amended: for a POST submission with fields present, to a live prompt,
that the handler stores (audioData is decoded and the store takes the write),
under a response id not yet in use: when the verdict is approved the
PublishedResponse is stored, and a review record is appended to
escalated_responses if the verdict is escalated and none if it is not; when the
verdict is rejected the submission is stored only as a ModerationQueueEntry that
carries the whole verdict, escalation marker included, and escalated_responses
is left as it was. -/
theorem published_escalation_recorded (env : Env) (db : Store) (req : Request)
    (promptId : String) (prompt : Prompt)
    (hMethod : req.method = "POST")
    (hPromptId : req.promptId = .string promptId) (hNonEmpty : promptId ≠ "")
    (hAudio : req.audioData.truthy = true)
    (hGet : env.getThrows = false)
    (hPrompt : getDoc promptId db.daily_prompts = some prompt)
    (hLive : ¬ env.now > prompt.expiresAt)
    (hDecode : bufferFromAccepts req.audioData = true)
    (hWrite : env.writeThrows = false)
    (hFresh : getDoc env.uuid db.audio_responses = none) :
    ((submittedVerdict env req).approved = true →
      (processSubmission env db req).audio_responses =
        setDoc env.uuid
          { id := env.uuid, promptId := promptId, audioData := req.audioData,
            transcription := submittedTranscript env req,
            duration := durationOrDefault req.duration,
            createdAt := env.serverTimestamp, flags := (submittedVerdict env req).flags,
            escalated := (submittedVerdict env req).escalated } db.audio_responses ∧
      (processSubmission env db req).moderation_queue = db.moderation_queue ∧
      ((submittedVerdict env req).escalated = true →
        (processSubmission env db req).escalated_responses =
          db.escalated_responses ++
            [{ responseId := env.uuid, promptId := promptId,
               transcription := submittedTranscript env req,
               flags := (submittedVerdict env req).flags,
               timestamp := env.serverTimestamp }]) ∧
      ((submittedVerdict env req).escalated = false →
        (processSubmission env db req).escalated_responses = db.escalated_responses)) ∧
    ((submittedVerdict env req).approved = false →
      (processSubmission env db req).audio_responses = db.audio_responses ∧
      (processSubmission env db req).moderation_queue =
        db.moderation_queue ++
          [{ promptId := promptId, transcription := submittedTranscript env req,
             moderationResult := submittedVerdict env req,
             timestamp := env.serverTimestamp }] ∧
      (processSubmission env db req).escalated_responses = db.escalated_responses) := by
  unfold processSubmission
  rw [submitResponse_of_live env db req promptId prompt hMethod hPromptId hNonEmpty hAudio hGet
    hPrompt hLive]
  simp only [hDecode, hWrite, Bool.true_eq_false, Bool.false_eq_true, if_false]
  constructor
  · intro ha
    simp only [ha, if_true, List.foldl_cons, List.foldl_nil, commitWrite, onCreateWrites,
      hFresh, Option.isNone_none, handleEscalatedResponse]
    refine ⟨?_, ?_, ?_, ?_⟩
    · cases (submittedVerdict env req).escalated <;>
        simp [Store.applyAll, Store.apply]
    · cases (submittedVerdict env req).escalated <;>
        simp [Store.applyAll, Store.apply]
    · intro he
      simp [he, Store.applyAll, Store.apply]
    · intro he
      simp [he, Store.applyAll, Store.apply]
  · intro ha
    simp [ha, commitWrite, onCreateWrites, Store.applyAll, Store.apply]

/-- C6, amended, at the sample submission heard as "nobody cares": the verdict
is approved and escalated, and the review record is written. -/
theorem published_escalation_recorded_witness :
    (submittedVerdict (sampleEnv 2000 "nobody cares") sampleRequest).approved = true ∧
    (submittedVerdict (sampleEnv 2000 "nobody cares") sampleRequest).escalated = true ∧
    (processSubmission (sampleEnv 2000 "nobody cares") sampleStore
      sampleRequest).escalated_responses =
      [{ responseId := "response-1", promptId := "2024-05-01", transcription := "nobody cares",
         flags := [Flag.SELF_HARM_RISK], timestamp := 2000 }] :=
  have ha : (submittedVerdict (sampleEnv 2000 "nobody cares") sampleRequest).approved = true := by
    decide
  have he : (submittedVerdict (sampleEnv 2000 "nobody cares") sampleRequest).escalated = true := by
    decide
  ⟨ha, he,
    ((published_escalation_recorded (sampleEnv 2000 "nobody cares") sampleStore sampleRequest
      "2024-05-01" samplePrompt rfl rfl (by decide) (by decide) rfl (by decide) (by decide)
      (by decide) rfl (by decide)).1 ha).2.2.1 he⟩

/-- C7, the code at the failing input expiresAt == now: the sample submission
made at time 86401000, the expiry of the sample prompt, is not answered "Prompt
has expired"; it is moderated, stored as a PublishedResponse and accepted, while
the sweep run at that same time counts the prompt as expired and deletes it. -/
theorem submission_at_expiry_instant_accepted :
    getDoc "2024-05-01" sampleStore.daily_prompts = some samplePrompt ∧
    samplePrompt.expiresAt ≤ (sampleEnv 86401000 "hello").now ∧
    (submitResponse (sampleEnv 86401000 "hello") sampleStore sampleRequest).reply =
      ⟨200, .success "response-1" false⟩ ∧
    (submitResponse (sampleEnv 86401000 "hello") sampleStore sampleRequest).reply ≠
      ⟨400, .error "Prompt has expired"⟩ ∧
    (submitResponse (sampleEnv 86401000 "hello") sampleStore sampleRequest).writes.any
      Write.isPublishedResponse = true ∧
    (submitResponse (sampleEnv 86401000 "hello") sampleStore sampleRequest).moderationResult =
      some { approved := true, flags := [], escalated := false, reason := none } ∧
    (cleanupExpiredContent 86401000 sampleStore).daily_prompts = [] := by
  decide

/-! ## The expiry sweep -/

/-- C10, as stated, fails: the sweep at time 90000000 deletes the expired sample
prompt and the response to it, and the moderation-queue entry that references
the deleted prompt remains. -/
theorem sweep_keeps_queue_entries :
    samplePrompt.expiresAt ≤ 90000000 ∧
    (cleanupExpiredContent 90000000 sampleStoreWithContent).daily_prompts = [] ∧
    (cleanupExpiredContent 90000000 sampleStoreWithContent).audio_responses = [] ∧
    (cleanupExpiredContent 90000000 sampleStoreWithContent).moderation_queue =
      [{ promptId := "2024-05-01", transcription := "i hate this",
         moderationResult :=
           { approved := false, flags := [Flag.HARMFUL_CONTENT], escalated := false,
             reason := some "Content violates community guidelines" },
         timestamp := 6000 }] := by
  decide

/-- C10, amended: after the sweep at time now no prompt with expiresAt <= now is
left, and for every prompt that had expiresAt <= now neither a prompt under its
key nor a PublishedResponse that references it by promptId is left; the
moderation queue and the escalation records are as they were. -/
theorem sweep_deletes_expired (now : Timestamp) (db : Store) :
    (∀ doc ∈ (cleanupExpiredContent now db).daily_prompts, now < doc.2.expiresAt) ∧
    (∀ promptDoc ∈ db.daily_prompts, promptDoc.2.expiresAt ≤ now →
      (∀ doc ∈ (cleanupExpiredContent now db).daily_prompts, doc.1 ≠ promptDoc.1) ∧
      (∀ responseDoc ∈ (cleanupExpiredContent now db).audio_responses,
        responseDoc.2.promptId ≠ promptDoc.1)) ∧
    (cleanupExpiredContent now db).moderation_queue = db.moderation_queue ∧
    (cleanupExpiredContent now db).escalated_responses = db.escalated_responses := by
  obtain ⟨h1, h2, h3, h4⟩ := applyAll_deletes (cleanupBatch now db) (cleanupBatch_deletes now db) db
  have hdel : ∀ promptDoc ∈ db.daily_prompts, promptDoc.2.expiresAt ≤ now →
      Write.deletePrompt promptDoc.1 ∈ cleanupBatch now db := by
    intro promptDoc hmem hexp
    simp only [cleanupBatch, List.mem_append, List.mem_map]
    exact Or.inl ⟨promptDoc, List.mem_filter.mpr ⟨hmem, by simpa using hexp⟩, rfl⟩
  refine ⟨?_, ?_, h1, h2⟩
  · intro doc hdoc
    obtain ⟨hmem, hnot⟩ := (h3 doc).mp hdoc
    by_contra hlt
    exact hnot (hdel doc hmem (Nat.le_of_not_lt hlt))
  · intro promptDoc hmem hexp
    constructor
    · intro doc hdoc heq
      obtain ⟨_, hnot⟩ := (h3 doc).mp hdoc
      rw [heq] at hnot
      exact hnot (hdel promptDoc hmem hexp)
    · intro responseDoc hdoc heq
      obtain ⟨hrmem, hnot⟩ := (h4 responseDoc).mp hdoc
      apply hnot
      simp only [cleanupBatch, List.mem_append, List.mem_map, List.mem_flatMap]
      exact Or.inr ⟨promptDoc, List.mem_filter.mpr ⟨hmem, by simpa using hexp⟩,
        responseDoc, List.mem_filter.mpr ⟨hrmem, by simpa using heq⟩, rfl⟩

/-- C10, amended, at the sample store swept at time 90000000: the expired sample
prompt is a prompt of the store, and after the sweep no prompt under its key and
no response that references it is left. -/
theorem sweep_deletes_expired_witness :
    (("2024-05-01", samplePrompt) ∈ sampleStoreWithContent.daily_prompts ∧
      samplePrompt.expiresAt ≤ 90000000) ∧
    (∀ doc ∈ (cleanupExpiredContent 90000000 sampleStoreWithContent).daily_prompts,
      doc.1 ≠ "2024-05-01") ∧
    (∀ responseDoc ∈ (cleanupExpiredContent 90000000 sampleStoreWithContent).audio_responses,
      responseDoc.2.promptId ≠ "2024-05-01") :=
  have hmem : ("2024-05-01", samplePrompt) ∈ sampleStoreWithContent.daily_prompts :=
    List.mem_cons_self _ _
  have hexp : samplePrompt.expiresAt ≤ 90000000 := by decide
  ⟨⟨hmem, hexp⟩,
    (sweep_deletes_expired 90000000 sampleStoreWithContent).2.1 ("2024-05-01", samplePrompt)
      hmem hexp⟩

end Stitch
